import Mathlib

/-!
# DHTesp: model introspection, unit conversion and comfort classification

A shallow embedding of `DHTesp.h`.  The C++ `float` quantities are taken as
exact rationals, `int8_t` results go through an explicit wrap to eight signed
bits, and the member functions of the `DHTesp` class are state passing: each
returns its result together with the driver state it leaves behind.  The four
comfort predicates also come in a second form, in which the value the `float`
evaluation gives the threshold line is left open.
-/

/-! ## Data model -/

/-- The enumeration `ComfortState` of `DHTesp.h`. -/
inductive ComfortState where
  | Comfort_OK
  | Comfort_TooHot
  | Comfort_TooCold
  | Comfort_TooDry
  | Comfort_TooHumid
  | Comfort_HotAndHumid
  | Comfort_HotAndDry
  | Comfort_ColdAndHumid
  | Comfort_ColdAndDry
  deriving DecidableEq, Repr

/-- The integer value the enumeration gives each `ComfortState` constant. -/
def ComfortState.toNat : ComfortState → Nat
  | .Comfort_OK => 0
  | .Comfort_TooHot => 1
  | .Comfort_TooCold => 2
  | .Comfort_TooDry => 4
  | .Comfort_TooHumid => 8
  | .Comfort_HotAndHumid => 9
  | .Comfort_HotAndDry => 5
  | .Comfort_ColdAndHumid => 10
  | .Comfort_ColdAndDry => 6

/-- All nine constants of `ComfortState`, in declaration order. -/
def ComfortState.all : List ComfortState :=
  [.Comfort_OK, .Comfort_TooHot, .Comfort_TooCold, .Comfort_TooDry, .Comfort_TooHumid,
   .Comfort_HotAndHumid, .Comfort_HotAndDry, .Comfort_ColdAndHumid, .Comfort_ColdAndDry]

/-- The struct `TempAndHumidity`. -/
structure TempAndHumidity where
  temperature : ℚ
  humidity : ℚ
  deriving DecidableEq

/-- The struct `ComfortProfile`: four lines `y = m x + b` (field names as in the source,
`m_tooHCold_b` included). -/
structure ComfortProfile where
  m_tooHot_m : ℚ
  m_tooHot_b : ℚ
  m_tooCold_m : ℚ
  m_tooHCold_b : ℚ
  m_tooDry_m : ℚ
  m_tooDry_b : ℚ
  m_tooHumid_m : ℚ
  m_tooHumid_b : ℚ
  deriving DecidableEq

namespace ComfortProfile

def isTooHot (p : ComfortProfile) (temp humidity : ℚ) : Bool :=
  decide (temp > (humidity * p.m_tooHot_m + p.m_tooHot_b))

def isTooHumid (p : ComfortProfile) (temp humidity : ℚ) : Bool :=
  decide (temp > (humidity * p.m_tooHumid_m + p.m_tooHumid_b))

def isTooCold (p : ComfortProfile) (temp humidity : ℚ) : Bool :=
  decide (temp < (humidity * p.m_tooCold_m + p.m_tooHCold_b))

def isTooDry (p : ComfortProfile) (temp humidity : ℚ) : Bool :=
  decide (temp < (humidity * p.m_tooDry_m + p.m_tooDry_b))

def distanceTooHot (p : ComfortProfile) (temp humidity : ℚ) : ℚ :=
  temp - (humidity * p.m_tooHot_m + p.m_tooHot_b)

def distanceTooHumid (p : ComfortProfile) (temp humidity : ℚ) : ℚ :=
  temp - (humidity * p.m_tooHumid_m + p.m_tooHumid_b)

def distanceTooCold (p : ComfortProfile) (temp humidity : ℚ) : ℚ :=
  (humidity * p.m_tooCold_m + p.m_tooHCold_b) - temp

def distanceTooDry (p : ComfortProfile) (temp humidity : ℚ) : ℚ :=
  (humidity * p.m_tooDry_m + p.m_tooDry_b) - temp

end ComfortProfile

/-- The enumeration `DHTesp::DHT_MODEL_t`. -/
inductive DHT_MODEL_t where
  | AUTO_DETECT
  | DHT11
  | DHT22
  | AM2302
  | RHT03
  deriving DecidableEq, Repr

/-- The enumeration `DHTesp::DHT_ERROR_t`. -/
inductive DHT_ERROR_t where
  | ERROR_NONE
  | ERROR_TIMEOUT
  | ERROR_CHECKSUM
  deriving DecidableEq, Repr

/-- Conversion of an `int` to the return type `int8_t`: wrap to eight signed bits. -/
def int8_t (x : Int) : Int :=
  (x + 128) % 256 - 128

/-- The data members of class `DHTesp`. -/
structure DHTesp where
  values : TempAndHumidity
  temperature : ℚ
  humidity : ℚ
  pin : Nat
  model : DHT_MODEL_t
  error : DHT_ERROR_t
  lastReadTime : Nat
  m_comfort : ComfortProfile
  deriving DecidableEq

namespace DHTesp

open DHT_MODEL_t

/-! ## Member functions defined in the header -/

def getStatus (self : DHTesp) : DHT_ERROR_t × DHTesp :=
  (self.error, self)

def getModel (self : DHTesp) : DHT_MODEL_t × DHTesp :=
  (self.model, self)

def getMinimumSamplingPeriod (self : DHTesp) : Int × DHTesp :=
  (if self.model = DHT11 then 1000 else 2000, self)

def getNumberOfDecimalsTemperature (self : DHTesp) : Int × DHTesp :=
  (int8_t (if self.model = DHT11 then 0 else 1), self)

def getLowerBoundTemperature (self : DHTesp) : Int × DHTesp :=
  (int8_t (if self.model = DHT11 then 0 else -40), self)

def getUpperBoundTemperature (self : DHTesp) : Int × DHTesp :=
  (int8_t (if self.model = DHT11 then 50 else 125), self)

def getNumberOfDecimalsHumidity (self : DHTesp) : Int × DHTesp :=
  (int8_t 0, self)

def getLowerBoundHumidity (self : DHTesp) : Int × DHTesp :=
  (int8_t (if self.model = DHT11 then 20 else 0), self)

def getUpperBoundHumidity (self : DHTesp) : Int × DHTesp :=
  (int8_t (if self.model = DHT11 then 90 else 100), self)

/-- Static member `toFahrenheit`, over exact rationals. -/
def toFahrenheit (fromCelcius : ℚ) : ℚ :=
  1.8 * fromCelcius + 32.0

/-- Static member `toCelsius`, over exact rationals. -/
def toCelsius (fromFahrenheit : ℚ) : ℚ :=
  (fromFahrenheit - 32.0) / 1.8

def getComfortProfile (self : DHTesp) : ComfortProfile × DHTesp :=
  (self.m_comfort, self)

def setComfortProfile (self : DHTesp) (c : ComfortProfile) : Unit × DHTesp :=
  ((), { self with m_comfort := c })

def isTooHot (self : DHTesp) (temp humidity : ℚ) : Bool × DHTesp :=
  (self.m_comfort.isTooHot temp humidity, self)

def isTooHumid (self : DHTesp) (temp humidity : ℚ) : Bool × DHTesp :=
  (self.m_comfort.isTooHumid temp humidity, self)

def isTooCold (self : DHTesp) (temp humidity : ℚ) : Bool × DHTesp :=
  (self.m_comfort.isTooCold temp humidity, self)

def isTooDry (self : DHTesp) (temp humidity : ℚ) : Bool × DHTesp :=
  (self.m_comfort.isTooDry temp humidity, self)

def getPin (self : DHTesp) : Nat × DHTesp :=
  (self.pin, self)

/-! ## Comfort predicates, the evaluation of the threshold line left open

The header evaluates `humidity * m + b` in `float`, which rounds, and compares `temp` with
the value obtained.  Below, `line humidity m b` stands for that value, whatever the
evaluation makes of it; the comparison is the header's. -/

/-- The threshold line evaluated without rounding. -/
def exactLine (humidity m b : ℚ) : ℚ :=
  humidity * m + b

/-- A sample rounding evaluation of the threshold line: the product, then the sum, are
each rounded down to a multiple of 1/8. -/
def sampleLine (humidity m b : ℚ) : ℚ :=
  ((Rat.floor ((((Rat.floor (humidity * m * 8) : ℤ) : ℚ) / 8 + b) * 8) : ℤ) : ℚ) / 8

end DHTesp

namespace ComfortProfile

/-- Member `isTooHot`, with the value of `humidity * m_tooHot_m + m_tooHot_b` given by
`line`. -/
def isTooHotWith (line : ℚ → ℚ → ℚ → ℚ) (p : ComfortProfile) (temp humidity : ℚ) : Bool :=
  decide (temp > (line humidity p.m_tooHot_m p.m_tooHot_b))

/-- Member `isTooHumid`, with the value of `humidity * m_tooHumid_m + m_tooHumid_b` given
by `line`. -/
def isTooHumidWith (line : ℚ → ℚ → ℚ → ℚ) (p : ComfortProfile) (temp humidity : ℚ) : Bool :=
  decide (temp > (line humidity p.m_tooHumid_m p.m_tooHumid_b))

/-- Member `isTooCold`, with the value of `humidity * m_tooCold_m + m_tooHCold_b` given by
`line`. -/
def isTooColdWith (line : ℚ → ℚ → ℚ → ℚ) (p : ComfortProfile) (temp humidity : ℚ) : Bool :=
  decide (temp < (line humidity p.m_tooCold_m p.m_tooHCold_b))

/-- Member `isTooDry`, with the value of `humidity * m_tooDry_m + m_tooDry_b` given by
`line`. -/
def isTooDryWith (line : ℚ → ℚ → ℚ → ℚ) (p : ComfortProfile) (temp humidity : ℚ) : Bool :=
  decide (temp < (line humidity p.m_tooDry_m p.m_tooDry_b))

end ComfortProfile

namespace DHTesp

/-- Member `DHTesp::isTooHot`, delegating to the profile, the line evaluated by `line`. -/
def isTooHotWith (line : ℚ → ℚ → ℚ → ℚ) (self : DHTesp) (temp humidity : ℚ) :
    Bool × DHTesp :=
  (self.m_comfort.isTooHotWith line temp humidity, self)

/-- Member `DHTesp::isTooHumid`, delegating to the profile, the line evaluated by `line`. -/
def isTooHumidWith (line : ℚ → ℚ → ℚ → ℚ) (self : DHTesp) (temp humidity : ℚ) :
    Bool × DHTesp :=
  (self.m_comfort.isTooHumidWith line temp humidity, self)

/-- Member `DHTesp::isTooCold`, delegating to the profile, the line evaluated by `line`. -/
def isTooColdWith (line : ℚ → ℚ → ℚ → ℚ) (self : DHTesp) (temp humidity : ℚ) :
    Bool × DHTesp :=
  (self.m_comfort.isTooColdWith line temp humidity, self)

/-- Member `DHTesp::isTooDry`, delegating to the profile, the line evaluated by `line`. -/
def isTooDryWith (line : ℚ → ℚ → ℚ → ℚ) (self : DHTesp) (temp humidity : ℚ) :
    Bool × DHTesp :=
  (self.m_comfort.isTooDryWith line temp humidity, self)

/-! ## Member function declared in the header, defined elsewhere -/

/-- Modelled from the spec: the distances, by the profile's distance functions, to the
thresholds whose test holds at the point (the violated thresholds), in the order hot,
cold, dry, humid.  Part of the model of `getComfortRatio`, whose body is not in
`DHTesp.h`. -/
def violatedDistances (p : ComfortProfile) (temp humidity : ℚ) : List ℚ :=
  (if p.isTooHot temp humidity then [p.distanceTooHot temp humidity] else []) ++
  (if p.isTooCold temp humidity then [p.distanceTooCold temp humidity] else []) ++
  (if p.isTooDry temp humidity then [p.distanceTooDry temp humidity] else []) ++
  (if p.isTooHumid temp humidity then [p.distanceTooHumid temp humidity] else [])

/-- Modelled from the spec: the distance to the nearest of the violated thresholds, the
least of their distances, and 0 when none is violated.  Part of the model of
`getComfortRatio`, whose body is not in `DHTesp.h`. -/
def nearestDistance : List ℚ → ℚ
  | [] => 0
  | d :: ds => ds.foldl min d

/-- Modelled from the spec: `getComfortRatio` is only declared in `DHTesp.h`; its body is
missing.  By the spec it evaluates the four ComfortProfile threshold tests, sets the
destination state to the bitwise OR of the flags TooHot=1, TooCold=2, TooDry=4, TooHumid=8
of the tests that hold, and returns the signed distance to the nearest violated threshold,
0 if none is violated.  The spec does not describe the unit flag for this function; as
for the other metric functions a Fahrenheit temperature is normalised to Celsius first.
The reference parameter `destComfStatus` is written only, so it is a result here: the
function yields the returned ratio and the destination state, with the driver state. -/
def getComfortRatio (self : DHTesp) (temperature percentHumidity : ℚ)
    (isFahrenheit : Bool) : (ℚ × Nat) × DHTesp :=
  let temperature := if isFahrenheit then toCelsius temperature else temperature
  let destComfStatus :=
    (if self.m_comfort.isTooHot temperature percentHumidity
      then ComfortState.Comfort_TooHot.toNat else 0) |||
    (if self.m_comfort.isTooCold temperature percentHumidity
      then ComfortState.Comfort_TooCold.toNat else 0) |||
    (if self.m_comfort.isTooDry temperature percentHumidity
      then ComfortState.Comfort_TooDry.toNat else 0) |||
    (if self.m_comfort.isTooHumid temperature percentHumidity
      then ComfortState.Comfort_TooHumid.toNat else 0)
  ((nearestDistance (violatedDistances self.m_comfort temperature percentHumidity),
    destComfStatus), self)

/-! ## Sample inputs -/

/-- A driver state used to instantiate the theorems below: the given pin and model, no
error, an all-zero reading and an all-zero comfort profile. -/
def sample (pin : Nat) (model : DHT_MODEL_t) : DHTesp :=
  { values := ⟨0, 0⟩, temperature := 0, humidity := 0, pin := pin, model := model,
    error := .ERROR_NONE, lastReadTime := 0, m_comfort := ⟨0, 0, 0, 0, 0, 0, 0, 0⟩ }

end DHTesp

/-- A second driver state, differing from `sample` in every member but the model. -/
def DHTesp.sampleOther (pin : Nat) (model : DHT_MODEL_t) : DHTesp :=
  { values := ⟨21, 40⟩, temperature := 21, humidity := 40, pin := pin, model := model,
    error := .ERROR_CHECKSUM, lastReadTime := 5000,
    m_comfort := ⟨0, 30, 0, 20, 0, 10, 0, 40⟩ }

/-! ## Unit conversion -/

/-- C1: over exact rationals `toFahrenheit` and `toCelsius` are inverse to each other,
in both orders, and compute `1.8 * c + 32` and `(f - 32) / 1.8`. -/
theorem DHTesp.toFahrenheit_toCelsius_inverse (x : ℚ) :
    DHTesp.toFahrenheit (DHTesp.toCelsius x) = x ∧
    DHTesp.toCelsius (DHTesp.toFahrenheit x) = x ∧
    DHTesp.toFahrenheit x = 9 / 5 * x + 32 ∧
    DHTesp.toCelsius x = (x - 32) / (9 / 5) := by
  unfold DHTesp.toFahrenheit DHTesp.toCelsius
  refine ⟨?_, ?_, ?_, ?_⟩
  · norm_num
    ring
  · norm_num
  · norm_num
  · norm_num

/-! ## Model introspection -/

/-- C4: getMinimumSamplingPeriod returns 1000 when the model is DHT11 and 2000 when the
model is DHT22, AM2302 or RHT03. -/
theorem DHTesp.getMinimumSamplingPeriod_by_model (s : DHTesp) :
    (s.model = .DHT11 → s.getMinimumSamplingPeriod.1 = 1000) ∧
    (s.model = .DHT22 ∨ s.model = .AM2302 ∨ s.model = .RHT03 →
      s.getMinimumSamplingPeriod.1 = 2000) := by
  constructor
  · intro h
    simp [DHTesp.getMinimumSamplingPeriod, h]
  · intro h
    rcases h with h | h | h <;> simp [DHTesp.getMinimumSamplingPeriod, h]

/-- Instance of C4 at a DHT11 driver and at an AM2302 driver. -/
theorem DHTesp.getMinimumSamplingPeriod_by_model_witness :
    (DHTesp.sample 4 .DHT11).model = .DHT11 ∧
    (DHTesp.sample 4 .DHT11).getMinimumSamplingPeriod.1 = 1000 ∧
    ((DHTesp.sample 4 .AM2302).model = .DHT22 ∨ (DHTesp.sample 4 .AM2302).model = .AM2302 ∨
      (DHTesp.sample 4 .AM2302).model = .RHT03) ∧
    (DHTesp.sample 4 .AM2302).getMinimumSamplingPeriod.1 = 2000 :=
  ⟨rfl,
   (DHTesp.getMinimumSamplingPeriod_by_model (DHTesp.sample 4 .DHT11)).1 rfl,
   Or.inr (Or.inl rfl),
   (DHTesp.getMinimumSamplingPeriod_by_model (DHTesp.sample 4 .AM2302)).2 (Or.inr (Or.inl rfl))⟩

/-- C5: the ComfortState encoding is a bitmask: the four basic flags are 1, 2, 4, 8 (distinct
single bits), Comfort_OK is 0, each combined constant is the bitwise OR of its two
components, and the nine values are pairwise distinct. -/
theorem ComfortState.encoding_is_bitmask :
    ComfortState.Comfort_OK.toNat = 0 ∧
    ComfortState.Comfort_TooHot.toNat = 2 ^ 0 ∧
    ComfortState.Comfort_TooCold.toNat = 2 ^ 1 ∧
    ComfortState.Comfort_TooDry.toNat = 2 ^ 2 ∧
    ComfortState.Comfort_TooHumid.toNat = 2 ^ 3 ∧
    ComfortState.Comfort_HotAndHumid.toNat
      = ComfortState.Comfort_TooHot.toNat ||| ComfortState.Comfort_TooHumid.toNat ∧
    ComfortState.Comfort_HotAndHumid.toNat = 9 ∧
    ComfortState.Comfort_HotAndDry.toNat
      = ComfortState.Comfort_TooHot.toNat ||| ComfortState.Comfort_TooDry.toNat ∧
    ComfortState.Comfort_HotAndDry.toNat = 5 ∧
    ComfortState.Comfort_ColdAndHumid.toNat
      = ComfortState.Comfort_TooCold.toNat ||| ComfortState.Comfort_TooHumid.toNat ∧
    ComfortState.Comfort_ColdAndHumid.toNat = 10 ∧
    ComfortState.Comfort_ColdAndDry.toNat
      = ComfortState.Comfort_TooCold.toNat ||| ComfortState.Comfort_TooDry.toNat ∧
    ComfortState.Comfort_ColdAndDry.toNat = 6 ∧
    (∀ a b : ComfortState, a.toNat = b.toNat → a = b) ∧
    (ComfortState.all.map ComfortState.toNat).Nodup ∧
    (∀ a : ComfortState, a ∈ ComfortState.all) := by
  refine ⟨rfl, rfl, rfl, rfl, rfl, by decide, rfl, by decide, rfl, by decide, rfl,
    by decide, rfl, ?_, by decide, ?_⟩
  · intro a b
    cases a <;> cases b <;> simp [ComfortState.toNat]
  · intro a
    cases a <;> simp [ComfortState.all]

/-- C6: every model-derived accessor returns, when the model is AM2302 or RHT03, the value
it returns when the model is DHT22. -/
theorem DHTesp.am2302_rht03_equivalent_to_dht22 (s t : DHTesp)
    (hs : s.model = .AM2302 ∨ s.model = .RHT03) (ht : t.model = .DHT22) :
    s.getMinimumSamplingPeriod.1 = t.getMinimumSamplingPeriod.1 ∧
    s.getNumberOfDecimalsTemperature.1 = t.getNumberOfDecimalsTemperature.1 ∧
    s.getLowerBoundTemperature.1 = t.getLowerBoundTemperature.1 ∧
    s.getUpperBoundTemperature.1 = t.getUpperBoundTemperature.1 ∧
    s.getNumberOfDecimalsHumidity.1 = t.getNumberOfDecimalsHumidity.1 ∧
    s.getLowerBoundHumidity.1 = t.getLowerBoundHumidity.1 ∧
    s.getUpperBoundHumidity.1 = t.getUpperBoundHumidity.1 := by
  rcases hs with hs | hs <;>
    simp [DHTesp.getMinimumSamplingPeriod, DHTesp.getNumberOfDecimalsTemperature,
      DHTesp.getLowerBoundTemperature, DHTesp.getUpperBoundTemperature,
      DHTesp.getNumberOfDecimalsHumidity, DHTesp.getLowerBoundHumidity,
      DHTesp.getUpperBoundHumidity, hs, ht]

/-- Instance of C6: an RHT03 driver on pin 7 against a DHT22 driver on pin 2. -/
theorem DHTesp.am2302_rht03_equivalent_to_dht22_witness :
    ((DHTesp.sample 7 .RHT03).model = .AM2302 ∨ (DHTesp.sample 7 .RHT03).model = .RHT03) ∧
    (DHTesp.sample 2 .DHT22).model = .DHT22 ∧
    (DHTesp.sample 7 .RHT03).getMinimumSamplingPeriod.1
      = (DHTesp.sample 2 .DHT22).getMinimumSamplingPeriod.1 ∧
    (DHTesp.sample 7 .RHT03).getNumberOfDecimalsTemperature.1
      = (DHTesp.sample 2 .DHT22).getNumberOfDecimalsTemperature.1 ∧
    (DHTesp.sample 7 .RHT03).getLowerBoundTemperature.1
      = (DHTesp.sample 2 .DHT22).getLowerBoundTemperature.1 ∧
    (DHTesp.sample 7 .RHT03).getUpperBoundTemperature.1
      = (DHTesp.sample 2 .DHT22).getUpperBoundTemperature.1 ∧
    (DHTesp.sample 7 .RHT03).getNumberOfDecimalsHumidity.1
      = (DHTesp.sample 2 .DHT22).getNumberOfDecimalsHumidity.1 ∧
    (DHTesp.sample 7 .RHT03).getLowerBoundHumidity.1
      = (DHTesp.sample 2 .DHT22).getLowerBoundHumidity.1 ∧
    (DHTesp.sample 7 .RHT03).getUpperBoundHumidity.1
      = (DHTesp.sample 2 .DHT22).getUpperBoundHumidity.1 :=
  ⟨Or.inr rfl, rfl,
   DHTesp.am2302_rht03_equivalent_to_dht22 (DHTesp.sample 7 .RHT03) (DHTesp.sample 2 .DHT22)
     (Or.inr rfl) rfl⟩

/-- C7: the bounds, decimal-count and sampling-period accessors return the same values on
any two driver states with the same model, whatever their other members, and each leaves
the state it is called on unchanged. -/
theorem DHTesp.accessors_derived_from_model (s t : DHTesp) (h : s.model = t.model) :
    (s.getLowerBoundTemperature.1 = t.getLowerBoundTemperature.1 ∧
     s.getUpperBoundTemperature.1 = t.getUpperBoundTemperature.1 ∧
     s.getNumberOfDecimalsTemperature.1 = t.getNumberOfDecimalsTemperature.1 ∧
     s.getLowerBoundHumidity.1 = t.getLowerBoundHumidity.1 ∧
     s.getUpperBoundHumidity.1 = t.getUpperBoundHumidity.1 ∧
     s.getNumberOfDecimalsHumidity.1 = t.getNumberOfDecimalsHumidity.1 ∧
     s.getMinimumSamplingPeriod.1 = t.getMinimumSamplingPeriod.1) ∧
    (s.getLowerBoundTemperature.2 = s ∧
     s.getUpperBoundTemperature.2 = s ∧
     s.getNumberOfDecimalsTemperature.2 = s ∧
     s.getLowerBoundHumidity.2 = s ∧
     s.getUpperBoundHumidity.2 = s ∧
     s.getNumberOfDecimalsHumidity.2 = s ∧
     s.getMinimumSamplingPeriod.2 = s) := by
  simp [DHTesp.getMinimumSamplingPeriod, DHTesp.getNumberOfDecimalsTemperature,
    DHTesp.getLowerBoundTemperature, DHTesp.getUpperBoundTemperature,
    DHTesp.getNumberOfDecimalsHumidity, DHTesp.getLowerBoundHumidity,
    DHTesp.getUpperBoundHumidity, h]

/-- Instance of C7: two DHT11 drivers that differ in pin, cached reading, error status,
last read time and comfort profile. -/
theorem DHTesp.accessors_derived_from_model_witness :
    (DHTesp.sample 4 .DHT11).model = (DHTesp.sampleOther 5 .DHT11).model ∧
    DHTesp.sample 4 .DHT11 ≠ DHTesp.sampleOther 5 .DHT11 ∧
    ((DHTesp.sample 4 .DHT11).getLowerBoundTemperature.1
        = (DHTesp.sampleOther 5 .DHT11).getLowerBoundTemperature.1 ∧
     (DHTesp.sample 4 .DHT11).getUpperBoundTemperature.1
        = (DHTesp.sampleOther 5 .DHT11).getUpperBoundTemperature.1 ∧
     (DHTesp.sample 4 .DHT11).getNumberOfDecimalsTemperature.1
        = (DHTesp.sampleOther 5 .DHT11).getNumberOfDecimalsTemperature.1 ∧
     (DHTesp.sample 4 .DHT11).getLowerBoundHumidity.1
        = (DHTesp.sampleOther 5 .DHT11).getLowerBoundHumidity.1 ∧
     (DHTesp.sample 4 .DHT11).getUpperBoundHumidity.1
        = (DHTesp.sampleOther 5 .DHT11).getUpperBoundHumidity.1 ∧
     (DHTesp.sample 4 .DHT11).getNumberOfDecimalsHumidity.1
        = (DHTesp.sampleOther 5 .DHT11).getNumberOfDecimalsHumidity.1 ∧
     (DHTesp.sample 4 .DHT11).getMinimumSamplingPeriod.1
        = (DHTesp.sampleOther 5 .DHT11).getMinimumSamplingPeriod.1) ∧
    ((DHTesp.sample 4 .DHT11).getLowerBoundTemperature.2 = DHTesp.sample 4 .DHT11 ∧
     (DHTesp.sample 4 .DHT11).getUpperBoundTemperature.2 = DHTesp.sample 4 .DHT11 ∧
     (DHTesp.sample 4 .DHT11).getNumberOfDecimalsTemperature.2 = DHTesp.sample 4 .DHT11 ∧
     (DHTesp.sample 4 .DHT11).getLowerBoundHumidity.2 = DHTesp.sample 4 .DHT11 ∧
     (DHTesp.sample 4 .DHT11).getUpperBoundHumidity.2 = DHTesp.sample 4 .DHT11 ∧
     (DHTesp.sample 4 .DHT11).getNumberOfDecimalsHumidity.2 = DHTesp.sample 4 .DHT11 ∧
     (DHTesp.sample 4 .DHT11).getMinimumSamplingPeriod.2 = DHTesp.sample 4 .DHT11) :=
  ⟨rfl, by simp [DHTesp.sample, DHTesp.sampleOther],
   DHTesp.accessors_derived_from_model (DHTesp.sample 4 .DHT11)
     (DHTesp.sampleOther 5 .DHT11) rfl⟩

/-- C10: for every model the reported ranges are well formed: lower temperature bound below
the upper one, 0 <= lower humidity bound < upper humidity bound <= 100, decimal counts 0 or
1, and every value returned as int8_t is the unwrapped value of its expression and lies in
[-128, 127]; a driver in AUTO_DETECT reports the values of a DHT22 driver, the 2000 ms
sampling period included. -/
theorem DHTesp.reported_ranges_well_formed (s t : DHTesp) :
    s.getLowerBoundTemperature.1 < s.getUpperBoundTemperature.1 ∧
    0 ≤ s.getLowerBoundHumidity.1 ∧
    s.getLowerBoundHumidity.1 < s.getUpperBoundHumidity.1 ∧
    s.getUpperBoundHumidity.1 ≤ 100 ∧
    (s.getNumberOfDecimalsTemperature.1 = 0 ∨ s.getNumberOfDecimalsTemperature.1 = 1) ∧
    (s.getNumberOfDecimalsHumidity.1 = 0 ∨ s.getNumberOfDecimalsHumidity.1 = 1) ∧
    (s.getNumberOfDecimalsTemperature.1 = (if s.model = .DHT11 then 0 else 1) ∧
     s.getLowerBoundTemperature.1 = (if s.model = .DHT11 then 0 else -40) ∧
     s.getUpperBoundTemperature.1 = (if s.model = .DHT11 then 50 else 125) ∧
     s.getNumberOfDecimalsHumidity.1 = 0 ∧
     s.getLowerBoundHumidity.1 = (if s.model = .DHT11 then 20 else 0) ∧
     s.getUpperBoundHumidity.1 = (if s.model = .DHT11 then 90 else 100)) ∧
    (-128 ≤ s.getLowerBoundTemperature.1 ∧ s.getLowerBoundTemperature.1 ≤ 127 ∧
     -128 ≤ s.getUpperBoundTemperature.1 ∧ s.getUpperBoundTemperature.1 ≤ 127 ∧
     -128 ≤ s.getLowerBoundHumidity.1 ∧ s.getLowerBoundHumidity.1 ≤ 127 ∧
     -128 ≤ s.getUpperBoundHumidity.1 ∧ s.getUpperBoundHumidity.1 ≤ 127 ∧
     -128 ≤ s.getNumberOfDecimalsTemperature.1 ∧ s.getNumberOfDecimalsTemperature.1 ≤ 127 ∧
     -128 ≤ s.getNumberOfDecimalsHumidity.1 ∧ s.getNumberOfDecimalsHumidity.1 ≤ 127) ∧
    (s.model = .AUTO_DETECT → t.model = .DHT22 →
      s.getMinimumSamplingPeriod.1 = 2000 ∧
      s.getMinimumSamplingPeriod.1 = t.getMinimumSamplingPeriod.1 ∧
      s.getNumberOfDecimalsTemperature.1 = t.getNumberOfDecimalsTemperature.1 ∧
      s.getLowerBoundTemperature.1 = t.getLowerBoundTemperature.1 ∧
      s.getUpperBoundTemperature.1 = t.getUpperBoundTemperature.1 ∧
      s.getNumberOfDecimalsHumidity.1 = t.getNumberOfDecimalsHumidity.1 ∧
      s.getLowerBoundHumidity.1 = t.getLowerBoundHumidity.1 ∧
      s.getUpperBoundHumidity.1 = t.getUpperBoundHumidity.1) := by
  by_cases h : s.model = .DHT11
  · simp [DHTesp.getMinimumSamplingPeriod, DHTesp.getNumberOfDecimalsTemperature,
      DHTesp.getLowerBoundTemperature, DHTesp.getUpperBoundTemperature,
      DHTesp.getNumberOfDecimalsHumidity, DHTesp.getLowerBoundHumidity,
      DHTesp.getUpperBoundHumidity, int8_t, h]
  · simp [DHTesp.getMinimumSamplingPeriod, DHTesp.getNumberOfDecimalsTemperature,
      DHTesp.getLowerBoundTemperature, DHTesp.getUpperBoundTemperature,
      DHTesp.getNumberOfDecimalsHumidity, DHTesp.getLowerBoundHumidity,
      DHTesp.getUpperBoundHumidity, int8_t, h]
    intro _ ht
    simp [ht]

/-- Instance of C10: a driver left in AUTO_DETECT against a DHT22 driver. -/
theorem DHTesp.reported_ranges_well_formed_witness :
    (DHTesp.sample 3 .AUTO_DETECT).model = .AUTO_DETECT ∧
    (DHTesp.sampleOther 9 .DHT22).model = .DHT22 ∧
    (DHTesp.sample 3 .AUTO_DETECT).getMinimumSamplingPeriod.1 = 2000 ∧
    (DHTesp.sample 3 .AUTO_DETECT).getMinimumSamplingPeriod.1
      = (DHTesp.sampleOther 9 .DHT22).getMinimumSamplingPeriod.1 ∧
    (DHTesp.sample 3 .AUTO_DETECT).getNumberOfDecimalsTemperature.1
      = (DHTesp.sampleOther 9 .DHT22).getNumberOfDecimalsTemperature.1 ∧
    (DHTesp.sample 3 .AUTO_DETECT).getLowerBoundTemperature.1
      = (DHTesp.sampleOther 9 .DHT22).getLowerBoundTemperature.1 ∧
    (DHTesp.sample 3 .AUTO_DETECT).getUpperBoundTemperature.1
      = (DHTesp.sampleOther 9 .DHT22).getUpperBoundTemperature.1 ∧
    (DHTesp.sample 3 .AUTO_DETECT).getNumberOfDecimalsHumidity.1
      = (DHTesp.sampleOther 9 .DHT22).getNumberOfDecimalsHumidity.1 ∧
    (DHTesp.sample 3 .AUTO_DETECT).getLowerBoundHumidity.1
      = (DHTesp.sampleOther 9 .DHT22).getLowerBoundHumidity.1 ∧
    (DHTesp.sample 3 .AUTO_DETECT).getUpperBoundHumidity.1
      = (DHTesp.sampleOther 9 .DHT22).getUpperBoundHumidity.1 :=
  ⟨rfl, rfl,
   (DHTesp.reported_ranges_well_formed (DHTesp.sample 3 .AUTO_DETECT)
     (DHTesp.sampleOther 9 .DHT22)).2.2.2.2.2.2.2.2 rfl rfl⟩

/-! ## Comfort profile -/

/-- C8: after setComfortProfile(c), getComfortProfile returns c, field by field; the
driver's four predicates agree with those of c at every point; and model, error status,
pin, last read time and the cached reading are unchanged. -/
theorem DHTesp.setComfortProfile_roundtrip (s : DHTesp) (c : ComfortProfile) :
    (s.setComfortProfile c).2.getComfortProfile.1 = c ∧
    ((s.setComfortProfile c).2.getComfortProfile.1.m_tooHot_m = c.m_tooHot_m ∧
     (s.setComfortProfile c).2.getComfortProfile.1.m_tooHot_b = c.m_tooHot_b ∧
     (s.setComfortProfile c).2.getComfortProfile.1.m_tooCold_m = c.m_tooCold_m ∧
     (s.setComfortProfile c).2.getComfortProfile.1.m_tooHCold_b = c.m_tooHCold_b ∧
     (s.setComfortProfile c).2.getComfortProfile.1.m_tooDry_m = c.m_tooDry_m ∧
     (s.setComfortProfile c).2.getComfortProfile.1.m_tooDry_b = c.m_tooDry_b ∧
     (s.setComfortProfile c).2.getComfortProfile.1.m_tooHumid_m = c.m_tooHumid_m ∧
     (s.setComfortProfile c).2.getComfortProfile.1.m_tooHumid_b = c.m_tooHumid_b) ∧
    (∀ temp humidity : ℚ,
      ((s.setComfortProfile c).2.isTooHot temp humidity).1 = c.isTooHot temp humidity ∧
      ((s.setComfortProfile c).2.isTooHumid temp humidity).1 = c.isTooHumid temp humidity ∧
      ((s.setComfortProfile c).2.isTooCold temp humidity).1 = c.isTooCold temp humidity ∧
      ((s.setComfortProfile c).2.isTooDry temp humidity).1 = c.isTooDry temp humidity) ∧
    ((s.setComfortProfile c).2.model = s.model ∧
     (s.setComfortProfile c).2.error = s.error ∧
     (s.setComfortProfile c).2.pin = s.pin ∧
     (s.setComfortProfile c).2.lastReadTime = s.lastReadTime ∧
     (s.setComfortProfile c).2.temperature = s.temperature ∧
     (s.setComfortProfile c).2.humidity = s.humidity ∧
     (s.setComfortProfile c).2.values = s.values) := by
  refine ⟨rfl, ⟨rfl, rfl, rfl, rfl, rfl, rfl, rfl, rfl⟩, ?_, ⟨rfl, rfl, rfl, rfl, rfl, rfl, rfl⟩⟩
  intro temp humidity
  exact ⟨rfl, rfl, rfl, rfl⟩

/-- C9: each comfort predicate holds exactly when its distance function is positive, and a
point on a threshold line has distance 0 to it and does not satisfy its predicate. -/
theorem ComfortProfile.predicate_iff_distance_pos (p : ComfortProfile) (temp humidity : ℚ) :
    (p.isTooHot temp humidity = true ↔ p.distanceTooHot temp humidity > 0) ∧
    (p.isTooHumid temp humidity = true ↔ p.distanceTooHumid temp humidity > 0) ∧
    (p.isTooCold temp humidity = true ↔ p.distanceTooCold temp humidity > 0) ∧
    (p.isTooDry temp humidity = true ↔ p.distanceTooDry temp humidity > 0) ∧
    (p.distanceTooHot (humidity * p.m_tooHot_m + p.m_tooHot_b) humidity = 0 ∧
     p.isTooHot (humidity * p.m_tooHot_m + p.m_tooHot_b) humidity = false) ∧
    (p.distanceTooHumid (humidity * p.m_tooHumid_m + p.m_tooHumid_b) humidity = 0 ∧
     p.isTooHumid (humidity * p.m_tooHumid_m + p.m_tooHumid_b) humidity = false) ∧
    (p.distanceTooCold (humidity * p.m_tooCold_m + p.m_tooHCold_b) humidity = 0 ∧
     p.isTooCold (humidity * p.m_tooCold_m + p.m_tooHCold_b) humidity = false) ∧
    (p.distanceTooDry (humidity * p.m_tooDry_m + p.m_tooDry_b) humidity = 0 ∧
     p.isTooDry (humidity * p.m_tooDry_m + p.m_tooDry_b) humidity = false) := by
  simp [ComfortProfile.isTooHot, ComfortProfile.isTooHumid, ComfortProfile.isTooCold,
    ComfortProfile.isTooDry, ComfortProfile.distanceTooHot, ComfortProfile.distanceTooHumid,
    ComfortProfile.distanceTooCold, ComfortProfile.distanceTooDry]

/-! ## Comfort classification -/

/-- Folding `min` over positive rationals from a positive start stays positive. -/
theorem DHTesp.foldl_min_pos (ds : List ℚ) :
    ∀ d : ℚ, 0 < d → (∀ x ∈ ds, 0 < x) → 0 < ds.foldl min d := by
  induction ds with
  | nil =>
    intro d hd _
    simpa using hd
  | cons a rest ih =>
    intro d hd h
    rw [List.foldl_cons]
    apply ih
    · exact lt_min hd (h a (List.mem_cons_self a rest))
    · intro x hx
      exact h x (List.mem_cons_of_mem a hx)

/-- The nearest distance of a non-empty list of positive distances is positive. -/
theorem DHTesp.nearestDistance_pos (l : List ℚ) (hne : l ≠ []) (h : ∀ x ∈ l, 0 < x) :
    0 < DHTesp.nearestDistance l := by
  cases l with
  | nil => exact absurd rfl hne
  | cons d ds =>
    unfold DHTesp.nearestDistance
    apply DHTesp.foldl_min_pos
    · exact h d (List.mem_cons_self d ds)
    · intro x hx
      exact h x (List.mem_cons_of_mem d hx)

/-- Every distance to a violated threshold is positive. -/
theorem DHTesp.violatedDistances_pos (p : ComfortProfile) (temp humidity : ℚ) :
    ∀ x ∈ DHTesp.violatedDistances p temp humidity, 0 < x := by
  intro x hx
  unfold DHTesp.violatedDistances at hx
  simp only [List.mem_append] at hx
  rcases hx with ((hx | hx) | hx) | hx
  · by_cases hp : p.isTooHot temp humidity = true
    · simp only [hp, if_true, List.mem_singleton] at hx
      subst hx
      simpa [ComfortProfile.isTooHot, ComfortProfile.distanceTooHot] using hp
    · simp [hp] at hx
  · by_cases hp : p.isTooCold temp humidity = true
    · simp only [hp, if_true, List.mem_singleton] at hx
      subst hx
      simpa [ComfortProfile.isTooCold, ComfortProfile.distanceTooCold] using hp
    · simp [hp] at hx
  · by_cases hp : p.isTooDry temp humidity = true
    · simp only [hp, if_true, List.mem_singleton] at hx
      subst hx
      simpa [ComfortProfile.isTooDry, ComfortProfile.distanceTooDry] using hp
    · simp [hp] at hx
  · by_cases hp : p.isTooHumid temp humidity = true
    · simp only [hp, if_true, List.mem_singleton] at hx
      subst hx
      simpa [ComfortProfile.isTooHumid, ComfortProfile.distanceTooHumid] using hp
    · simp [hp] at hx

/-- No threshold is violated exactly when all four tests fail. -/
theorem DHTesp.violatedDistances_eq_nil (p : ComfortProfile) (temp humidity : ℚ) :
    DHTesp.violatedDistances p temp humidity = [] ↔
      (p.isTooHot temp humidity = false ∧ p.isTooCold temp humidity = false ∧
       p.isTooDry temp humidity = false ∧ p.isTooHumid temp humidity = false) := by
  unfold DHTesp.violatedDistances
  cases p.isTooHot temp humidity <;> cases p.isTooCold temp humidity <;>
    cases p.isTooDry temp humidity <;> cases p.isTooHumid temp humidity <;> simp

/-- The destination state written by `getComfortRatio`, bit by bit. -/
theorem DHTesp.flags_bits (a b c d : Bool) :
    ((((if a then ComfortState.Comfort_TooHot.toNat else 0) |||
       (if b then ComfortState.Comfort_TooCold.toNat else 0) |||
       (if c then ComfortState.Comfort_TooDry.toNat else 0) |||
       (if d then ComfortState.Comfort_TooHumid.toNat else 0)) = 0 ↔
      (a = false ∧ b = false ∧ c = false ∧ d = false)) ∧
     ((if a then ComfortState.Comfort_TooHot.toNat else 0) |||
       (if b then ComfortState.Comfort_TooCold.toNat else 0) |||
       (if c then ComfortState.Comfort_TooDry.toNat else 0) |||
       (if d then ComfortState.Comfort_TooHumid.toNat else 0)).testBit 0 = a ∧
     ((if a then ComfortState.Comfort_TooHot.toNat else 0) |||
       (if b then ComfortState.Comfort_TooCold.toNat else 0) |||
       (if c then ComfortState.Comfort_TooDry.toNat else 0) |||
       (if d then ComfortState.Comfort_TooHumid.toNat else 0)).testBit 1 = b ∧
     ((if a then ComfortState.Comfort_TooHot.toNat else 0) |||
       (if b then ComfortState.Comfort_TooCold.toNat else 0) |||
       (if c then ComfortState.Comfort_TooDry.toNat else 0) |||
       (if d then ComfortState.Comfort_TooHumid.toNat else 0)).testBit 2 = c ∧
     ((if a then ComfortState.Comfort_TooHot.toNat else 0) |||
       (if b then ComfortState.Comfort_TooCold.toNat else 0) |||
       (if c then ComfortState.Comfort_TooDry.toNat else 0) |||
       (if d then ComfortState.Comfort_TooHumid.toNat else 0)).testBit 3 = d ∧
     ((if a then ComfortState.Comfort_TooHot.toNat else 0) |||
       (if b then ComfortState.Comfort_TooCold.toNat else 0) |||
       (if c then ComfortState.Comfort_TooDry.toNat else 0) |||
       (if d then ComfortState.Comfort_TooHumid.toNat else 0)) < 16) := by
  cases a <;> cases b <;> cases c <;> cases d <;> decide

/-- C2: getComfortRatio returns 0 and sets the destination state to Comfort_OK exactly when
isTooHot, isTooCold, isTooDry and isTooHumid are all false at the point tested (the
temperature in Celsius); otherwise the returned value is nonzero; and bits 0 to 3 of the
destination state (TooHot=1, TooCold=2, TooDry=4, TooHumid=8) are exactly the four
predicates, no other bit being set. -/
theorem DHTesp.getComfortRatio_classifies (s : DHTesp) (temperature percentHumidity : ℚ)
    (isFahrenheit : Bool) :
    let t := if isFahrenheit then DHTesp.toCelsius temperature else temperature
    let r := (s.getComfortRatio temperature percentHumidity isFahrenheit).1
    let allFalse :=
      s.m_comfort.isTooHot t percentHumidity = false ∧
      s.m_comfort.isTooCold t percentHumidity = false ∧
      s.m_comfort.isTooDry t percentHumidity = false ∧
      s.m_comfort.isTooHumid t percentHumidity = false
    ((r.1 = 0 ∧ r.2 = ComfortState.Comfort_OK.toNat) ↔ allFalse) ∧
    (¬ allFalse → r.1 ≠ 0) ∧
    (r.2.testBit 0 = s.m_comfort.isTooHot t percentHumidity ∧
     r.2.testBit 1 = s.m_comfort.isTooCold t percentHumidity ∧
     r.2.testBit 2 = s.m_comfort.isTooDry t percentHumidity ∧
     r.2.testBit 3 = s.m_comfort.isTooHumid t percentHumidity ∧
     r.2 < 16) := by
  intro t r allFalse
  have hbits := DHTesp.flags_bits (s.m_comfort.isTooHot t percentHumidity)
    (s.m_comfort.isTooCold t percentHumidity) (s.m_comfort.isTooDry t percentHumidity)
    (s.m_comfort.isTooHumid t percentHumidity)
  have hnil := DHTesp.violatedDistances_eq_nil s.m_comfort t percentHumidity
  have hpos := DHTesp.violatedDistances_pos s.m_comfort t percentHumidity
  have hr1 : r.1 = DHTesp.nearestDistance
      (DHTesp.violatedDistances s.m_comfort t percentHumidity) := rfl
  have hne : ¬ allFalse → r.1 ≠ 0 := by
    intro hnot
    rw [hr1]
    exact ne_of_gt (DHTesp.nearestDistance_pos _ (fun hn => hnot (hnil.mp hn)) hpos)
  refine ⟨⟨?_, ?_⟩, hne, hbits.2⟩
  · rintro ⟨h0, _⟩
    by_contra hnot
    exact hne hnot h0
  · intro hall
    refine ⟨?_, ?_⟩
    · rw [hr1, hnil.mpr hall]
      rfl
    · exact hbits.1.mpr hall

/-- Instance of C2: with hot line 30, cold line 20, dry line 10, humid line 40 the point
(35, 50) in Celsius is too hot, so not all four predicates are false, and the returned value
is nonzero. -/
theorem DHTesp.getComfortRatio_classifies_witness :
    ¬ ((DHTesp.sampleOther 4 .DHT22).m_comfort.isTooHot 35 50 = false ∧
       (DHTesp.sampleOther 4 .DHT22).m_comfort.isTooCold 35 50 = false ∧
       (DHTesp.sampleOther 4 .DHT22).m_comfort.isTooDry 35 50 = false ∧
       (DHTesp.sampleOther 4 .DHT22).m_comfort.isTooHumid 35 50 = false) ∧
    ((DHTesp.sampleOther 4 .DHT22).getComfortRatio 35 50 false).1.1 ≠ 0 :=
  ⟨by norm_num [DHTesp.sampleOther, ComfortProfile.isTooHot],
   (DHTesp.getComfortRatio_classifies (DHTesp.sampleOther 4 .DHT22) 35 50 false).2.1
     (by norm_num [DHTesp.sampleOther, ComfortProfile.isTooHot])⟩

/-- Four flags of which no incompatible pair is raised combine to a named constant. -/
theorem DHTesp.flags_named (a b c d : Bool) (hab : ¬ (a = true ∧ b = true))
    (hcd : ¬ (c = true ∧ d = true)) :
    ∃ st : ComfortState, st.toNat =
      ((if a then ComfortState.Comfort_TooHot.toNat else 0) |||
       (if b then ComfortState.Comfort_TooCold.toNat else 0) |||
       (if c then ComfortState.Comfort_TooDry.toNat else 0) |||
       (if d then ComfortState.Comfort_TooHumid.toNat else 0)) := by
  cases a <;> cases b <;> cases c <;> cases d <;>
    first
    | exact (hab (And.intro rfl rfl)).elim
    | exact (hcd (And.intro rfl rfl)).elim
    | exact ⟨.Comfort_OK, rfl⟩
    | exact ⟨.Comfort_TooHot, rfl⟩
    | exact ⟨.Comfort_TooCold, rfl⟩
    | exact ⟨.Comfort_TooDry, rfl⟩
    | exact ⟨.Comfort_TooHumid, rfl⟩
    | exact ⟨.Comfort_HotAndHumid, rfl⟩
    | exact ⟨.Comfort_HotAndDry, rfl⟩
    | exact ⟨.Comfort_ColdAndHumid, rfl⟩
    | exact ⟨.Comfort_ColdAndDry, rfl⟩

/-- C3, as stated, fails: with the profile hot line 0, cold line 10, dry line 10, humid
line 0 (all slopes 0) set through setComfortProfile, the point (5, 50) is too hot and too
cold, too dry and too humid at once, and the OR of the four flags is 15, which is none of
the nine named ComfortState values. -/
theorem DHTesp.incompatible_flags_counterexample :
    (((DHTesp.sample 4 .DHT22).setComfortProfile ⟨0, 0, 0, 10, 0, 10, 0, 0⟩).2.isTooHot 5 50).1
      = true ∧
    (((DHTesp.sample 4 .DHT22).setComfortProfile ⟨0, 0, 0, 10, 0, 10, 0, 0⟩).2.isTooCold 5 50).1
      = true ∧
    (((DHTesp.sample 4 .DHT22).setComfortProfile ⟨0, 0, 0, 10, 0, 10, 0, 0⟩).2.isTooDry 5 50).1
      = true ∧
    (((DHTesp.sample 4 .DHT22).setComfortProfile ⟨0, 0, 0, 10, 0, 10, 0, 0⟩).2.isTooHumid 5 50).1
      = true ∧
    ((if (((DHTesp.sample 4 .DHT22).setComfortProfile
            ⟨0, 0, 0, 10, 0, 10, 0, 0⟩).2.isTooHot 5 50).1
        then ComfortState.Comfort_TooHot.toNat else 0) |||
     (if (((DHTesp.sample 4 .DHT22).setComfortProfile
            ⟨0, 0, 0, 10, 0, 10, 0, 0⟩).2.isTooCold 5 50).1
        then ComfortState.Comfort_TooCold.toNat else 0) |||
     (if (((DHTesp.sample 4 .DHT22).setComfortProfile
            ⟨0, 0, 0, 10, 0, 10, 0, 0⟩).2.isTooDry 5 50).1
        then ComfortState.Comfort_TooDry.toNat else 0) |||
     (if (((DHTesp.sample 4 .DHT22).setComfortProfile
            ⟨0, 0, 0, 10, 0, 10, 0, 0⟩).2.isTooHumid 5 50).1
        then ComfortState.Comfort_TooHumid.toNat else 0)) = 15 ∧
    ∀ st : ComfortState, st.toNat ≠ 15 := by
  have hHot : (((DHTesp.sample 4 .DHT22).setComfortProfile
      ⟨0, 0, 0, 10, 0, 10, 0, 0⟩).2.isTooHot 5 50).1 = true := by
    simp [DHTesp.setComfortProfile, DHTesp.isTooHot, ComfortProfile.isTooHot]
  have hCold : (((DHTesp.sample 4 .DHT22).setComfortProfile
      ⟨0, 0, 0, 10, 0, 10, 0, 0⟩).2.isTooCold 5 50).1 = true := by
    simp [DHTesp.setComfortProfile, DHTesp.isTooCold, ComfortProfile.isTooCold]
    norm_num
  have hDry : (((DHTesp.sample 4 .DHT22).setComfortProfile
      ⟨0, 0, 0, 10, 0, 10, 0, 0⟩).2.isTooDry 5 50).1 = true := by
    simp [DHTesp.setComfortProfile, DHTesp.isTooDry, ComfortProfile.isTooDry]
    norm_num
  have hHumid : (((DHTesp.sample 4 .DHT22).setComfortProfile
      ⟨0, 0, 0, 10, 0, 10, 0, 0⟩).2.isTooHumid 5 50).1 = true := by
    simp [DHTesp.setComfortProfile, DHTesp.isTooHumid, ComfortProfile.isTooHumid]
  refine ⟨hHot, hCold, hDry, hHumid, ?_, ?_⟩
  · rw [hHot, hCold, hDry, hHumid]
    decide
  · intro st
    cases st <;> decide

/-- With the line evaluated exactly, the open forms of the four driver predicates are the
predicates of the exact embedding. -/
theorem DHTesp.predicatesWith_exactLine (s : DHTesp) (temp humidity : ℚ) :
    s.isTooHotWith DHTesp.exactLine temp humidity = s.isTooHot temp humidity ∧
    s.isTooColdWith DHTesp.exactLine temp humidity = s.isTooCold temp humidity ∧
    s.isTooDryWith DHTesp.exactLine temp humidity = s.isTooDry temp humidity ∧
    s.isTooHumidWith DHTesp.exactLine temp humidity = s.isTooHumid temp humidity :=
  ⟨rfl, rfl, rfl, rfl⟩

/-- C3, amended: for every profile set through setComfortProfile, every point and every
evaluation of the threshold lines (exact or rounding): when the too-cold threshold value
does not exceed the too-hot threshold value, isTooHot and isTooCold are not both true; when
the too-dry threshold value does not exceed the too-humid threshold value, isTooDry and
isTooHumid are not both true; and when both orderings hold, the OR of the flags of the true
predicates is one of the nine named ComfortState values.  The threshold values are those
the predicates compare the temperature with. -/
theorem DHTesp.compatible_flags_combine (line : ℚ → ℚ → ℚ → ℚ) (s : DHTesp)
    (c : ComfortProfile) (temp humidity : ℚ) :
    (line humidity c.m_tooCold_m c.m_tooHCold_b ≤ line humidity c.m_tooHot_m c.m_tooHot_b →
      ¬ (((s.setComfortProfile c).2.isTooHotWith line temp humidity).1 = true ∧
         ((s.setComfortProfile c).2.isTooColdWith line temp humidity).1 = true)) ∧
    (line humidity c.m_tooDry_m c.m_tooDry_b ≤ line humidity c.m_tooHumid_m c.m_tooHumid_b →
      ¬ (((s.setComfortProfile c).2.isTooDryWith line temp humidity).1 = true ∧
         ((s.setComfortProfile c).2.isTooHumidWith line temp humidity).1 = true)) ∧
    (line humidity c.m_tooCold_m c.m_tooHCold_b ≤ line humidity c.m_tooHot_m c.m_tooHot_b →
     line humidity c.m_tooDry_m c.m_tooDry_b ≤ line humidity c.m_tooHumid_m c.m_tooHumid_b →
      ∃ st : ComfortState, st.toNat =
        ((if ((s.setComfortProfile c).2.isTooHotWith line temp humidity).1
            then ComfortState.Comfort_TooHot.toNat else 0) |||
         (if ((s.setComfortProfile c).2.isTooColdWith line temp humidity).1
            then ComfortState.Comfort_TooCold.toNat else 0) |||
         (if ((s.setComfortProfile c).2.isTooDryWith line temp humidity).1
            then ComfortState.Comfort_TooDry.toNat else 0) |||
         (if ((s.setComfortProfile c).2.isTooHumidWith line temp humidity).1
            then ComfortState.Comfort_TooHumid.toNat else 0))) := by
  have hab : line humidity c.m_tooCold_m c.m_tooHCold_b
        ≤ line humidity c.m_tooHot_m c.m_tooHot_b →
      ¬ (((s.setComfortProfile c).2.isTooHotWith line temp humidity).1 = true ∧
         ((s.setComfortProfile c).2.isTooColdWith line temp humidity).1 = true) := by
    intro hle
    simp only [DHTesp.setComfortProfile, DHTesp.isTooHotWith, DHTesp.isTooColdWith,
      ComfortProfile.isTooHotWith, ComfortProfile.isTooColdWith, decide_eq_true_eq]
    rintro ⟨h1, h2⟩
    linarith
  have hcd : line humidity c.m_tooDry_m c.m_tooDry_b
        ≤ line humidity c.m_tooHumid_m c.m_tooHumid_b →
      ¬ (((s.setComfortProfile c).2.isTooDryWith line temp humidity).1 = true ∧
         ((s.setComfortProfile c).2.isTooHumidWith line temp humidity).1 = true) := by
    intro hle
    simp only [DHTesp.setComfortProfile, DHTesp.isTooDryWith, DHTesp.isTooHumidWith,
      ComfortProfile.isTooDryWith, ComfortProfile.isTooHumidWith, decide_eq_true_eq]
    rintro ⟨h1, h2⟩
    linarith
  exact ⟨hab, hcd, fun h1 h2 => DHTesp.flags_named _ _ _ _ (hab h1) (hcd h2)⟩

/-- Instance of amended C3 under the rounding evaluation `sampleLine`: hot line
33 - h/10, cold line 22 - h/20, dry line 25 - h/5, humid line 50 - h/4, at the point
(30, 47), which is too hot only. -/
theorem DHTesp.compatible_flags_combine_witness :
    (DHTesp.sampleLine 47 (-1 / 20) 22 ≤ DHTesp.sampleLine 47 (-1 / 10) 33 ∧
     DHTesp.sampleLine 47 (-1 / 5) 25 ≤ DHTesp.sampleLine 47 (-1 / 4) 50) ∧
    ¬ ((((DHTesp.sample 4 .DHT22).setComfortProfile
          ⟨-1 / 10, 33, -1 / 20, 22, -1 / 5, 25, -1 / 4, 50⟩).2.isTooHotWith
            DHTesp.sampleLine 30 47).1 = true ∧
       (((DHTesp.sample 4 .DHT22).setComfortProfile
          ⟨-1 / 10, 33, -1 / 20, 22, -1 / 5, 25, -1 / 4, 50⟩).2.isTooColdWith
            DHTesp.sampleLine 30 47).1 = true) ∧
    ¬ ((((DHTesp.sample 4 .DHT22).setComfortProfile
          ⟨-1 / 10, 33, -1 / 20, 22, -1 / 5, 25, -1 / 4, 50⟩).2.isTooDryWith
            DHTesp.sampleLine 30 47).1 = true ∧
       (((DHTesp.sample 4 .DHT22).setComfortProfile
          ⟨-1 / 10, 33, -1 / 20, 22, -1 / 5, 25, -1 / 4, 50⟩).2.isTooHumidWith
            DHTesp.sampleLine 30 47).1 = true) ∧
    ∃ st : ComfortState, st.toNat =
      ((if (((DHTesp.sample 4 .DHT22).setComfortProfile
              ⟨-1 / 10, 33, -1 / 20, 22, -1 / 5, 25, -1 / 4, 50⟩).2.isTooHotWith
                DHTesp.sampleLine 30 47).1
          then ComfortState.Comfort_TooHot.toNat else 0) |||
       (if (((DHTesp.sample 4 .DHT22).setComfortProfile
              ⟨-1 / 10, 33, -1 / 20, 22, -1 / 5, 25, -1 / 4, 50⟩).2.isTooColdWith
                DHTesp.sampleLine 30 47).1
          then ComfortState.Comfort_TooCold.toNat else 0) |||
       (if (((DHTesp.sample 4 .DHT22).setComfortProfile
              ⟨-1 / 10, 33, -1 / 20, 22, -1 / 5, 25, -1 / 4, 50⟩).2.isTooDryWith
                DHTesp.sampleLine 30 47).1
          then ComfortState.Comfort_TooDry.toNat else 0) |||
       (if (((DHTesp.sample 4 .DHT22).setComfortProfile
              ⟨-1 / 10, 33, -1 / 20, 22, -1 / 5, 25, -1 / 4, 50⟩).2.isTooHumidWith
                DHTesp.sampleLine 30 47).1
          then ComfortState.Comfort_TooHumid.toNat else 0)) :=
  ⟨⟨by norm_num [DHTesp.sampleLine, Rat.floor_def'],
    by norm_num [DHTesp.sampleLine, Rat.floor_def']⟩,
   (DHTesp.compatible_flags_combine DHTesp.sampleLine (DHTesp.sample 4 .DHT22)
     ⟨-1 / 10, 33, -1 / 20, 22, -1 / 5, 25, -1 / 4, 50⟩ 30 47).1
     (by norm_num [DHTesp.sampleLine, Rat.floor_def']),
   (DHTesp.compatible_flags_combine DHTesp.sampleLine (DHTesp.sample 4 .DHT22)
     ⟨-1 / 10, 33, -1 / 20, 22, -1 / 5, 25, -1 / 4, 50⟩ 30 47).2.1
     (by norm_num [DHTesp.sampleLine, Rat.floor_def']),
   (DHTesp.compatible_flags_combine DHTesp.sampleLine (DHTesp.sample 4 .DHT22)
     ⟨-1 / 10, 33, -1 / 20, 22, -1 / 5, 25, -1 / 4, 50⟩ 30 47).2.2
     (by norm_num [DHTesp.sampleLine, Rat.floor_def'])
     (by norm_num [DHTesp.sampleLine, Rat.floor_def'])⟩

/-- The orderings are needed on the evaluated thresholds: under the rounding evaluation
`sampleLine`, with hot line 1/16 + h/16 and cold line 1/8, the exact cold line does not
exceed the exact hot line at humidity 1, yet the point (1/16, 1) is too hot and too cold. -/
theorem DHTesp.exact_ordering_not_enough_when_rounding :
    DHTesp.exactLine 1 0 (1 / 8) ≤ DHTesp.exactLine 1 (1 / 16) (1 / 16) ∧
    ¬ (DHTesp.sampleLine 1 0 (1 / 8) ≤ DHTesp.sampleLine 1 (1 / 16) (1 / 16)) ∧
    (((DHTesp.sample 4 .DHT22).setComfortProfile
        ⟨1 / 16, 1 / 16, 0, 1 / 8, 0, 0, 0, 0⟩).2.isTooHotWith
          DHTesp.sampleLine (1 / 16) 1).1 = true ∧
    (((DHTesp.sample 4 .DHT22).setComfortProfile
        ⟨1 / 16, 1 / 16, 0, 1 / 8, 0, 0, 0, 0⟩).2.isTooColdWith
          DHTesp.sampleLine (1 / 16) 1).1 = true := by
  refine ⟨?_, ?_, ?_, ?_⟩
  · norm_num [DHTesp.exactLine]
  · norm_num [DHTesp.sampleLine, Rat.floor_def']
  · norm_num [DHTesp.setComfortProfile, DHTesp.isTooHotWith, ComfortProfile.isTooHotWith,
      DHTesp.sampleLine, Rat.floor_def']
  · norm_num [DHTesp.setComfortProfile, DHTesp.isTooColdWith, ComfortProfile.isTooColdWith,
      DHTesp.sampleLine, Rat.floor_def']
